import Mathlib

/-!
Verification development for the GitHub-repositories analytics dashboard
(src/app.py). The script's core is a pandas pipeline:

  load_data  : read_csv, fillna on language, fillna(0).astype(int) on the
               four count columns, to_datetime(errors=coerce) on created_at;
  filtering  : sequential boolean-mask filters on language membership,
               star-count range, and (when the column exists) date range;
  aggregates : nlargest(10, stars_count), metrics (len, sums, int(mean));
  download   : to_csv(index=False) of the filtered frame (which by that
               point has gained an age column when created_at exists);
  errors     : one try/except around the whole body.

We embed the pipeline shallowly: scalar cells become an inductive Cell,
data frames become lists of records plus column-presence flags, pandas
and Python numeric conversions become explicit executable functions, and
the Streamlit page run becomes a function from a source and criteria to
the list of rendered elements.
-/

deriving instance DecidableEq for Except

namespace App

/-- A scalar cell value: missing (NaN or NaT), integer, float
(modelled by a rational), string, or datetime (a parsed timestamp,
encoded as an integer). read_csv never produces a datetime cell — only
to_datetime does — which is exactly why a written timestamp does not
read back as one. -/
inductive Cell where
  | na : Cell
  | intv (n : Int) : Cell
  | floatv (q : Rat) : Cell
  | strv (s : String) : Cell
  | datev (d : Int) : Cell
deriving DecidableEq, Repr

/-- Decimal digit characters, as used when rendering numbers. -/
def digitChar (d : Nat) : Char :=
  match d with
  | 0 => '0'
  | 1 => '1'
  | 2 => '2'
  | 3 => '3'
  | 4 => '4'
  | 5 => '5'
  | 6 => '6'
  | 7 => '7'
  | 8 => '8'
  | _ => '9'

/-- Numeric value of a decimal digit character. -/
def digitVal (c : Char) : Nat := c.toNat - '0'.toNat

/-- Big-endian decimal digits, structurally recursive on a fuel bound
so that concrete values reduce. -/
def natDigitsAux : Nat → Nat → List Char
  | 0, n => [digitChar n]
  | fuel + 1, n =>
    if n < 10 then [digitChar n] else natDigitsAux fuel (n / 10) ++ [digitChar (n % 10)]

/-- Big-endian decimal digits of a natural number. -/
def natDigits (n : Nat) : List Char := natDigitsAux n n

/-- Decimal rendering of an integer, as written by pandas to_csv for an
integer column. -/
def renderInt (n : Int) : String :=
  if n < 0 then String.mk ('-' :: natDigits n.natAbs) else String.mk (natDigits n.natAbs)

/-- Value of a list of decimal digit characters, most significant first. -/
def digitsVal (cs : List Char) : Nat :=
  cs.foldl (fun n c => n * 10 + digitVal c) 0

/-- Parse an unsigned decimal digit string; none when empty or when any
character is not a digit. -/
def parseDigits (cs : List Char) : Option Nat :=
  if cs ≠ [] ∧ cs.all Char.isDigit then some (digitsVal cs) else none

/-- Parse an optionally negated decimal integer string. Models both the
integer inference of pandas read_csv and the Python int conversion of a
string, neither of which accepts fractional text. -/
def parseIntStr (s : String) : Option Int :=
  if s.data.head? = some '-' then (parseDigits s.data.tail).map (fun n : Nat => -(n : Int))
  else (parseDigits s.data).map (fun n : Nat => (n : Int))

/-- Parse a decimal fraction string of the shape digits dot digits, with
an optional leading minus sign. Models the float inference of pandas
read_csv for plain decimal text. -/
def parseFloatStr (s : String) : Option Rat :=
  let core := fun (cs : List Char) (sgn : Rat) =>
    match cs.splitOn '.' with
    | [a, b] =>
      if a ≠ [] ∧ b ≠ [] ∧ a.all Char.isDigit ∧ b.all Char.isDigit then
        some (sgn * ((digitsVal a : Rat) + (digitsVal b : Rat) / ((10 : Rat) ^ b.length)))
      else none
    | _ => none
  if s.data.head? = some '-' then core s.data.tail (-1) else core s.data 1

/-- The default strings pandas read_csv interprets as missing values. -/
def naTokens : List String :=
  ["", "#N/A", "#N/A N/A", "#NA", "-1.#IND", "-1.#QNAN", "-NaN", "-nan",
   "1.#IND", "1.#QNAN", "<NA>", "N/A", "NA", "NULL", "NaN", "None",
   "n/a", "nan", "null"]

/-- Cell inference of pandas read_csv on one CSV field: integer text
becomes an integer, decimal text becomes a float, a recognised NA token
becomes missing, anything else stays a string. (No NA token parses as a
number, so testing the numeric forms first is equivalent to the pandas
order.) -/
def readCell (s : String) : Cell :=
  match parseIntStr s with
  | some n => Cell.intv n
  | none =>
    match parseFloatStr s with
    | some q => Cell.floatv q
    | none => if naTokens.contains s then Cell.na else Cell.strv s

/-- Model of a timestamp string in ISO year-month-day form, encoded so
that the encoding is strictly monotone in the calendar order. Unparsable
text yields none, matching to_datetime with errors set to coerce. -/
def parseDateStr (s : String) : Option Int :=
  match s.data.splitOn '-' with
  | [y, m, d] =>
    match parseDigits y, parseDigits m, parseDigits d with
    | some yv, some mv, some dv =>
      if 1 ≤ mv ∧ mv ≤ 12 ∧ 1 ≤ dv ∧ dv ≤ 31 then
        some ((yv : Int) * 512 + (mv : Int) * 32 + (dv : Int))
      else none
    | _, _, _ => none
  | _ => none

/-- pandas to_datetime with errors set to coerce, per cell: missing stays
missing (NaT), numbers are taken as epoch values, strings are parsed and
parse failures become NaT rather than errors. -/
def parseDate (c : Cell) : Option Int :=
  match c with
  | Cell.na => none
  | Cell.intv n => some n
  | Cell.floatv q => some (q.num.tdiv q.den)
  | Cell.strv s => parseDateStr s
  | Cell.datev d => some d

/-- One count cell under fillna(0).astype(int): missing becomes 0,
integers pass through, floats truncate toward zero as Python int does,
and a string is converted by Python int, which raises ValueError on
text that is not a plain integer literal. A datetime cell converts to
its epoch integer; none occurs in raw input, since read_csv performs no
date parsing. -/
def coerceCount (c : Cell) : Except String Int :=
  match c with
  | Cell.na => Except.ok 0
  | Cell.intv n => Except.ok n
  | Cell.floatv q => Except.ok (q.num.tdiv q.den)
  | Cell.strv s =>
    match parseIntStr s with
    | some n => Except.ok n
    | none => Except.error "invalid literal for int with base 10"
  | Cell.datev d => Except.ok d

/-- One raw row as read_csv delivers it. The created_at, topics and
country cells are meaningful only when the owning table carries the
corresponding column. -/
structure RawRow where
  repositories : Cell
  language : Cell
  stars_count : Cell
  forks_count : Cell
  contributors : Cell
  issues_count : Cell
  created_at : Cell
  topics : Cell
  country : Cell
deriving DecidableEq, Repr

/-- The raw table read from the CSV: which optional columns are present,
and the rows. The required columns are always present. -/
structure RawTable where
  hasCreatedAt : Bool
  hasTopics : Bool
  hasCountry : Bool
  rows : List RawRow
deriving DecidableEq, Repr

/-- A normalized record after load_data: language filled, the four
counts coerced to integers, created_at parsed to an optional timestamp
(none both for NaT and for an absent column), and an age field that is
none until the script later adds the age column. -/
structure Row where
  repositories : Cell
  language : Cell
  stars_count : Int
  forks_count : Int
  contributors : Int
  issues_count : Int
  created_at : Option Int
  age : Option Int
  topics : Cell
  country : Cell
deriving DecidableEq, Repr

/-- The Normalized Dataset: column-presence flags plus normalized rows. -/
structure Table where
  hasCreatedAt : Bool
  hasTopics : Bool
  hasCountry : Bool
  rows : List Row
deriving DecidableEq, Repr

/-- Errors surfaced by the loader and body, after the except clauses of
the script: missing file, empty file, unparsable structure, and the
ValueError family reaching the generic handler. -/
inductive LoadErr where
  | fileNotFound : LoadErr
  | emptyData : LoadErr
  | parserError : LoadErr
  | valueError (msg : String) : LoadErr
deriving DecidableEq, Repr

/-- Replace a missing language by the sentinel, per data.language.fillna. -/
def fillLanguage (c : Cell) : Cell :=
  if c = Cell.na then Cell.strv "Not Specified" else c

/-- Normalize one row as load_data does column-wise: fill language,
coerce the four counts (any failure aborts the load with ValueError),
parse created_at when the column exists. -/
def normalizeRow (hasCA : Bool) (r : RawRow) : Except LoadErr Row :=
  match coerceCount r.stars_count, coerceCount r.forks_count,
        coerceCount r.contributors, coerceCount r.issues_count with
  | Except.error m, _, _, _ => Except.error (LoadErr.valueError m)
  | _, Except.error m, _, _ => Except.error (LoadErr.valueError m)
  | _, _, Except.error m, _ => Except.error (LoadErr.valueError m)
  | _, _, _, Except.error m => Except.error (LoadErr.valueError m)
  | Except.ok s, Except.ok f, Except.ok c, Except.ok i =>
    Except.ok { repositories := r.repositories
                language := fillLanguage r.language
                stars_count := s
                forks_count := f
                contributors := c
                issues_count := i
                created_at := if hasCA then parseDate r.created_at else none
                age := none
                topics := r.topics
                country := r.country }

/-- Normalize every row; the first failing conversion aborts the load,
as the raising astype call does. (pandas converts column by column and
this model row by row; the two agree on whether the load fails and on
the table produced when it succeeds.) -/
def normalizeRows (hasCA : Bool) : List RawRow → Except LoadErr (List Row)
  | [] => Except.ok []
  | r :: rs =>
    match normalizeRow hasCA r with
    | Except.error e => Except.error e
    | Except.ok nr =>
      match normalizeRows hasCA rs with
      | Except.error e => Except.error e
      | Except.ok nrs => Except.ok (nr :: nrs)

/-- load_data on an already-read table: fillna on language, then
fillna(0).astype(int) on the four count columns, then to_datetime with
errors set to coerce on created_at when that column exists. The
st.cache_data wrapper only memoises the result and is not modelled. -/
def load_data (t : RawTable) : Except LoadErr Table :=
  match normalizeRows t.hasCreatedAt t.rows with
  | Except.error e => Except.error e
  | Except.ok rows =>
    Except.ok { hasCreatedAt := t.hasCreatedAt
                hasTopics := t.hasTopics
                hasCountry := t.hasCountry
                rows := rows }

/-- The condition of the source file: missing, empty, structurally
unparsable, or readable into a raw table. -/
inductive Source where
  | notFound : Source
  | emptyFile : Source
  | malformed : Source
  | ok (t : RawTable) : Source

/-- pandas read_csv at the file level: FileNotFoundError,
EmptyDataError, ParserError, or the parsed raw table. -/
def read_csv : Source → Except LoadErr RawTable
  | Source.notFound => Except.error LoadErr.fileNotFound
  | Source.emptyFile => Except.error LoadErr.emptyData
  | Source.malformed => Except.error LoadErr.parserError
  | Source.ok t => Except.ok t

/-- Full loader: read the file, then normalize. -/
def loadFrom (s : Source) : Except LoadErr Table := do
  load_data (← read_csv s)

/-- The sidebar state that feeds the filters: the multiselect value, the
star slider value, and the date widget value (some exactly when the
widget returned a two-date tuple; the widget exists only when the
created_at column does). Dates are the encoded timestamps produced by
to_datetime on the widget values. -/
structure Criteria where
  selected_languages : List String
  star_range : Int × Int
  date_range : Option (Int × Int)
deriving DecidableEq, Repr

/-- Membership test of the isin mask on the language column: a cell
passes only when it is a string equal to one of the selected names. -/
def langMember (sel : List String) (c : Cell) : Bool :=
  match c with
  | Cell.strv s => sel.contains s
  | _ => false

/-- The guard of line 99: a specific selection is active when the list
is non-empty and does not contain the literal All. -/
def langActive (c : Criteria) : Bool :=
  !c.selected_languages.isEmpty && !(c.selected_languages.contains "All")

/-- The star-range mask of lines 104-107, inclusive at both ends. -/
def starInRange (p : Int × Int) (r : Row) : Bool :=
  decide (p.1 ≤ r.stars_count) && decide (r.stars_count ≤ p.2)

/-- The date-range mask of lines 111-114, inclusive at both ends. A row
whose created_at is NaT compares false against both bounds, so it is
dropped whenever this mask is applied. -/
def dateInRange (dr : Option (Int × Int)) (r : Row) : Bool :=
  match r.created_at, dr with
  | some d, some p => decide (p.1 ≤ d) && decide (d ≤ p.2)
  | _, _ => false

/-- The guard of line 110: the date filter runs when the created_at
column exists and the date widget value is truthy. -/
def dateActive (t : Table) (c : Criteria) : Bool :=
  t.hasCreatedAt && c.date_range.isSome

/-- The filter pipeline of lines 96-114, applied in source order. The
guard of line 103 on the star range is a two-element tuple and hence
always truthy, so the star mask is applied unconditionally. -/
def filtered_data (data : Table) (c : Criteria) : List Row :=
  let fd := data.rows
  let fd :=
    if langActive c then fd.filter (fun r => langMember c.selected_languages r.language) else fd
  let fd := fd.filter (starInRange c.star_range)
  let fd := if dateActive data c then fd.filter (dateInRange c.date_range) else fd
  fd

/-- The list of mask predicates the pipeline actually applies, in source
order, omitting the inactive ones. -/
def activeFilters (data : Table) (c : Criteria) : List (Row → Bool) :=
  (if langActive c then [fun r => langMember c.selected_languages r.language] else [])
  ++ [starInRange c.star_range]
  ++ (if dateActive data c then [dateInRange c.date_range] else [])

/-- Apply a list of mask predicates left to right, each as one boolean
indexing step. -/
def applyFilters (ps : List (Row → Bool)) (l : List Row) : List Row :=
  ps.foldl (fun acc p => acc.filter p) l

/-- The comparison pandas nlargest with keep first effectively sorts by:
strictly more stars first, and among equal star counts the smaller
original position first. -/
def nlargestRel (a b : Nat × Row) : Prop :=
  b.2.stars_count < a.2.stars_count ∨
    (a.2.stars_count = b.2.stars_count ∧ a.1 ≤ b.1)

instance : DecidableRel nlargestRel := fun a b =>
  inferInstanceAs (Decidable (b.2.stars_count < a.2.stars_count ∨
    (a.2.stars_count = b.2.stars_count ∧ a.1 ≤ b.1)))

instance : IsTotal (Nat × Row) nlargestRel :=
  ⟨fun a b => by unfold nlargestRel; omega⟩

instance : IsTrans (Nat × Row) nlargestRel :=
  ⟨fun a b c hab hbc => by unfold nlargestRel at hab hbc ⊢; omega⟩

/-- The position-tagged top list: tag each row with its original index,
sort by the nlargest comparison (a stable total order, so ties keep the
original order), keep the first ten. -/
def topIndexed (l : List Row) : List (Nat × Row) :=
  (l.enum.insertionSort nlargestRel).take 10

/-- nlargest(10, stars_count) of line 164: the ten rows with the most
stars, descending, ties keeping original row order. The subsequent
column selection and number formatting of lines 164-170 only restyle
this list for display and are not part of the aggregate. -/
def top_repos (l : List Row) : List Row :=
  (topIndexed l).map Prod.snd

/-- Python int of the mean of a column, as in line 125: the mean of an
empty column is NaN and int raises ValueError on it; otherwise the exact
mean is truncated toward zero. -/
def intMean (l : List Int) : Except LoadErr Int :=
  if l.length = 0 then Except.error (LoadErr.valueError "cannot convert float NaN to integer")
  else Except.ok (l.sum.tdiv l.length)

/-- Python int of the minimum of the stars column, as the slider bounds
of lines 83-85 compute it; raises on an empty frame because the minimum
is then NaN. -/
def intMinStars (l : List Row) : Except LoadErr Int :=
  match (l.map Row.stars_count).min? with
  | some v => Except.ok v
  | none => Except.error (LoadErr.valueError "cannot convert float NaN to integer")

/-- The characters of the timestamp text to_csv writes for a datetime
value: the calendar fields of the encoding, dash-separated, mirroring
ISO date text. -/
def dateChars (d : Int) : List Char :=
  natDigits (d.natAbs / 512) ++ ('-' :: natDigits (d.natAbs % 512 / 32))
    ++ ('-' :: natDigits (d.natAbs % 32))

/-- The timestamp text to_csv writes for a datetime value. -/
def renderDate (d : Int) : String := String.mk (dateChars d)

/-- The columns of a normalized table, the required six followed by the
optional ones the source carried. -/
def Table.columns (t : Table) : List String :=
  ["repositories", "language", "stars_count", "forks_count", "contributors", "issues_count"]
  ++ (if t.hasCreatedAt then ["created_at"] else [])
  ++ (if t.hasTopics then ["topics"] else [])
  ++ (if t.hasCountry then ["country"] else [])

/-- An optional integer column value as a cell (used for the age
column, whose values are whole day counts): none is NaN. -/
def cellOfOptInt : Option Int → Cell
  | none => Cell.na
  | some n => Cell.intv n

/-- The created_at column value as a cell: NaT is missing, a present
value is a datetime cell, as the column is datetime-typed in memory. -/
def cellOfDate : Option Int → Cell
  | none => Cell.na
  | some d => Cell.datev d

/-- The cells of one row in column order, including the optional
columns the table carries and, when present, the age column the script
added. -/
def rowCells (hasCA hasTop hasCtry includeAge : Bool) (r : Row) : List Cell :=
  [r.repositories, r.language, Cell.intv r.stars_count, Cell.intv r.forks_count,
   Cell.intv r.contributors, Cell.intv r.issues_count]
  ++ (if hasCA then [cellOfDate r.created_at] else [])
  ++ (if hasTop then [r.topics] else [])
  ++ (if hasCtry then [r.country] else [])
  ++ (if includeAge then [cellOfOptInt r.age] else [])

/-- Rendering of a non-integral float; the exact decimal text pandas
would write is not modelled further, and the round-trip statement
excludes float cells by hypothesis. -/
def renderFloat (q : Rat) : String :=
  renderInt q.num ++ "/" ++ renderInt (q.den : Int)

/-- One CSV field as to_csv writes it: missing values become the empty
field, integers their decimal text, strings their own text, datetime
values their timestamp text. -/
def renderCell : Cell → String
  | Cell.na => ""
  | Cell.intv n => renderInt n
  | Cell.floatv q => renderFloat q
  | Cell.strv s => s
  | Cell.datev d => renderDate d

/-- A CSV document at the field level: the header row and the data
rows. Quoting concerns only the joining of fields into text lines and
is below this model. -/
structure Csv where
  header : List String
  rows : List (List String)
deriving DecidableEq, Repr

/-- to_csv with index set to False: the header is exactly the frame's
columns with no leading index column, and each row is its cells
rendered. The includeAge flag records whether the frame has gained the
age column by this point. -/
def to_csv (t : Table) (includeAge : Bool) (rows : List Row) : Csv :=
  { header := t.columns ++ (if includeAge then ["age"] else [])
    rows := rows.map (fun r =>
      (rowCells t.hasCreatedAt t.hasTopics t.hasCountry includeAge r).map renderCell) }

/-- Re-reading a written CSV: every field goes through the read_csv
cell inference. -/
def reparseCsv (c : Csv) : List (List Cell) :=
  c.rows.map (fun fr => fr.map readCell)

/-- The frame mutations of lines 189-204 on the filtered data: when
created_at exists, to_datetime is reapplied (the identity, the column is
already parsed) and an age column of now minus created_at is added;
rows with NaT created_at get a missing age. -/
def tab3Mutations (t : Table) (now : Int) (rows : List Row) : List Row :=
  if t.hasCreatedAt then
    rows.map (fun r => { r with age := r.created_at.map (fun d => now - d) })
  else rows

/-- The document the download button of lines 241-246 serializes: the
filtered data as it stands after the tab-three mutations. -/
def downloadCsv (t : Table) (c : Criteria) (now : Int) : Csv :=
  to_csv t t.hasCreatedAt (tab3Mutations t now (filtered_data t c))

/-- A cell whose written field reads back deterministically: missing
and integer cells come back unchanged, a safe string (one that does not
itself read back as a number or an NA token) comes back unchanged, and
a datetime cell comes back as its timestamp text. -/
def cellSafe : Cell → Bool
  | Cell.na => true
  | Cell.intv _ => true
  | Cell.floatv _ => false
  | Cell.strv s => (parseIntStr s).isNone && (parseFloatStr s).isNone && !(naTokens.contains s)
  | Cell.datev _ => true

/-- What a written cell reads back as: a datetime cell comes back as
its timestamp text — a plain string, since read_csv performs no date
parsing — and every other cell as itself. -/
def textifyCell : Cell → Cell
  | Cell.datev d => Cell.strv (renderDate d)
  | c => c

/-- One element the page run emits, in emission order. Chart items carry
no payload: rendering is an external collaborator, only which views
appear matters here. -/
inductive RenderItem where
  | titleBlock : RenderItem
  | metricTotalRepos (n : Nat) : RenderItem
  | metricTotalStars (n : Int) : RenderItem
  | metricTotalForks (n : Int) : RenderItem
  | metricAvgContributors (n : Int) : RenderItem
  | pieChart : RenderItem
  | scatterStarsForks : RenderItem
  | topReposTable : RenderItem
  | scatterIssuesContrib : RenderItem
  | monthlyTrendChart : RenderItem
  | ageHistogram : RenderItem
  | choropleth : RenderItem
  | wordCloudView : RenderItem
  | downloadButton (doc : Csv) : RenderItem
  | footer : RenderItem
  | errorBox (msg : String) : RenderItem
  | warningBox (msg : String) : RenderItem
deriving DecidableEq, Repr

/-- The body of the try block after a successful load: elements already
written stay on the page when a later statement raises, matching the
incremental rendering of the host framework. Returns the emitted
elements and the exception that escaped the body, if any. The slider
bounds are the first statement that can raise (int of NaN on an empty
frame); the average-contributors metric is the second (int of the mean
of an empty filtered frame). -/
def appBody (t : Table) (c : Criteria) (now : Int) : List RenderItem × Option LoadErr :=
  match intMinStars t.rows with
  | Except.error e => ([RenderItem.titleBlock], some e)
  | Except.ok _ =>
    let fd := filtered_data t c
    let metrics3 :=
      [RenderItem.titleBlock,
       RenderItem.metricTotalRepos fd.length,
       RenderItem.metricTotalStars (fd.map Row.stars_count).sum,
       RenderItem.metricTotalForks (fd.map Row.forks_count).sum]
    match intMean (fd.map Row.contributors) with
    | Except.error e => (metrics3, some e)
    | Except.ok avg =>
      (metrics3
        ++ [RenderItem.metricAvgContributors avg,
            RenderItem.pieChart,
            RenderItem.scatterStarsForks,
            RenderItem.topReposTable,
            RenderItem.scatterIssuesContrib]
        ++ (if t.hasCreatedAt then
              [RenderItem.monthlyTrendChart, RenderItem.ageHistogram] else [])
        ++ (if t.hasCountry then [RenderItem.choropleth] else [])
        ++ (if t.hasTopics then [RenderItem.wordCloudView] else [])
        ++ [RenderItem.downloadButton (downloadCsv t c now), RenderItem.footer],
       none)

/-- The four error messages of the except clauses of lines 260-270. -/
def errorItems (e : LoadErr) : List RenderItem :=
  match e with
  | LoadErr.fileNotFound =>
    [RenderItem.errorBox "Dataset file not found. Please make sure the file exists."]
  | LoadErr.emptyData =>
    [RenderItem.errorBox "The dataset file is empty. Please provide a valid dataset."]
  | LoadErr.parserError =>
    [RenderItem.errorBox "Error parsing the dataset file. Please check the file format."]
  | LoadErr.valueError m =>
    [RenderItem.errorBox ("An error occurred: " ++ m),
     RenderItem.warningBox "Please make sure the dataset file exists and contains the required columns."]

/-- One full page run: load inside the try block, then the body; any
exception lands in the matching except clause, whose message follows
whatever the page had already emitted. -/
def runApp (s : Source) (c : Criteria) (now : Int) : List RenderItem :=
  match loadFrom s with
  | Except.error e => errorItems e
  | Except.ok t =>
    match appBody t c now with
    | (items, none) => items
    | (items, some e) => items ++ errorItems e

/-- The variable state of the script around the filtered frame: the
frame bound to the data variable, and the frame bound to filtered_data,
which is either its own object or an alias of the data frame. The alias
constructor exists so the model can express the in-place-update hazard
the copy on line 96 avoids. -/
inductive FilteredRef where
  | alias : FilteredRef
  | own (rows : List Row) : FilteredRef
deriving DecidableEq, Repr

/-- The two pandas objects the filter section manipulates. -/
structure PState where
  dataRows : List Row
  filtered : FilteredRef
deriving DecidableEq, Repr

/-- The rows currently visible through the filtered_data variable. -/
def PState.view (st : PState) : List Row :=
  match st.filtered with
  | FilteredRef.alias => st.dataRows
  | FilteredRef.own rows => rows

/-- Boolean indexing assigned back to filtered_data: always produces a
fresh object. -/
def PState.filterStep (st : PState) (p : Row → Bool) : PState :=
  { st with filtered := FilteredRef.own (st.view.filter p) }

/-- Column assignment on the filtered_data variable: an in-place update
of whichever object the variable refers to, so through an alias it would
write into the data frame itself. -/
def PState.setColStep (st : PState) (f : Row → Row) : PState :=
  match st.filtered with
  | FilteredRef.alias => { st with dataRows := st.dataRows.map f }
  | FilteredRef.own rows => { st with filtered := FilteredRef.own (rows.map f) }

/-- The script's whole handling of the filtered frame: the copy of line
96, the three guarded filter assignments of lines 99-114, and in tab
three, when created_at exists, the to_datetime reassignment of line 191
and the age-column assignment of line 204. -/
def scriptFrames (t : Table) (c : Criteria) (now : Int) : PState :=
  let st : PState := { dataRows := t.rows, filtered := FilteredRef.own t.rows }
  let st := if langActive c then
    st.filterStep (fun r => langMember c.selected_languages r.language) else st
  let st := st.filterStep (starInRange c.star_range)
  let st := if dateActive t c then st.filterStep (dateInRange c.date_range) else st
  let st := if t.hasCreatedAt then
    (st.setColStep id).setColStep (fun r => { r with age := r.created_at.map (fun d => now - d) })
  else st
  st

/-- Whether a source cell is non-negative wherever it carries a number
at all: missing cells and non-numeric strings are unconstrained, since
the load turns the former into 0 and rejects the latter. -/
def cellNonneg : Cell → Bool
  | Cell.na => true
  | Cell.intv n => decide (0 ≤ n)
  | Cell.floatv q => decide (0 ≤ q)
  | Cell.strv s =>
    match parseIntStr s with
    | some n => decide (0 ≤ n)
    | none => true
  | Cell.datev d => decide (0 ≤ d)

/-- The Filtered Dataset as it stands in memory at download time, one
list of cells per row, age column included when the script added it. -/
def inMemoryCells (t : Table) (c : Criteria) (now : Int) : List (List Cell) :=
  (tab3Mutations t now (filtered_data t c)).map
    (rowCells t.hasCreatedAt t.hasTopics t.hasCountry t.hasCreatedAt)

/-- A raw row with a negative star count, as nothing in the load
prevents. -/
def cxRawNegRow : RawRow :=
  { repositories := Cell.strv "neg-repo", language := Cell.strv "Go",
    stars_count := Cell.intv (-1), forks_count := Cell.intv 0,
    contributors := Cell.intv 0, issues_count := Cell.intv 0,
    created_at := Cell.na, topics := Cell.na, country := Cell.na }

/-- A raw table containing the negative-star row. -/
def cxRawNeg : RawTable :=
  { hasCreatedAt := false, hasTopics := false, hasCountry := false, rows := [cxRawNegRow] }

/-- A benign raw row exercising every coercion: missing language,
missing forks, string contributors, fractional issues. -/
def c1wRaw : RawTable :=
  { hasCreatedAt := false, hasTopics := false, hasCountry := false,
    rows := [{ repositories := Cell.strv "alpha", language := Cell.na,
               stars_count := Cell.intv 5, forks_count := Cell.na,
               contributors := Cell.strv "7", issues_count := Cell.intv 3,
               created_at := Cell.na, topics := Cell.na, country := Cell.na }] }

/-- The normalized table the benign raw table loads to. -/
def c1wTable : Table :=
  { hasCreatedAt := false, hasTopics := false, hasCountry := false,
    rows := [{ repositories := Cell.strv "alpha", language := Cell.strv "Not Specified",
               stars_count := 5, forks_count := 0, contributors := 7, issues_count := 3,
               created_at := none, age := none, topics := Cell.na, country := Cell.na }] }

/-- A normalized row used to exercise the filter predicates. -/
def c2Row : Row :=
  { repositories := Cell.strv "r1", language := Cell.strv "Go", stars_count := 100,
    forks_count := 1, contributors := 2, issues_count := 3, created_at := some 10,
    age := none, topics := Cell.na, country := Cell.na }

/-- A one-row table with a created_at column. -/
def c2Table : Table :=
  { hasCreatedAt := true, hasTopics := false, hasCountry := false, rows := [c2Row] }

/-- Criteria with all three filters active and satisfied by c2Row. -/
def c2Crit : Criteria :=
  { selected_languages := ["Go"], star_range := (0, 1000), date_range := some (5, 15) }

/-- A row with a present creation date. -/
def cx3Row1 : Row :=
  { repositories := Cell.strv "a", language := Cell.strv "Go", stars_count := 3,
    forks_count := 0, contributors := 0, issues_count := 0, created_at := some 5,
    age := none, topics := Cell.na, country := Cell.na }

/-- A row with an absent (NaT) creation date. -/
def cx3Row2 : Row :=
  { repositories := Cell.strv "b", language := Cell.strv "Rust", stars_count := 3,
    forks_count := 0, contributors := 0, issues_count := 0, created_at := none,
    age := none, topics := Cell.na, country := Cell.na }

/-- A dataset carrying a created_at column with one absent value. -/
def cx3Table : Table :=
  { hasCreatedAt := true, hasTopics := false, hasCountry := false,
    rows := [cx3Row1, cx3Row2] }

/-- The widest criteria the sidebar can produce for cx3Table: all
languages, the full star range, the date widget at the minimum and
maximum of the present dates. -/
def cx3Crit : Criteria :=
  { selected_languages := ["All"], star_range := (3, 3), date_range := some (5, 5) }

/-- A two-row dataset without a created_at column. -/
def c3wTable : Table :=
  { hasCreatedAt := false, hasTopics := false, hasCountry := false,
    rows := [{ repositories := Cell.strv "a", language := Cell.strv "Go", stars_count := 1,
               forks_count := 0, contributors := 0, issues_count := 0, created_at := none,
               age := none, topics := Cell.na, country := Cell.na },
             { repositories := Cell.strv "b", language := Cell.strv "Rust", stars_count := 4,
               forks_count := 0, contributors := 0, issues_count := 0, created_at := none,
               age := none, topics := Cell.na, country := Cell.na }] }

/-- Pass-through criteria for c3wTable: empty selection, full range. -/
def c3wCrit : Criteria :=
  { selected_languages := [], star_range := (1, 4), date_range := none }

/-- An empty dataset that carries a created_at column, so the download
gains an age column. -/
def cx4TableA : Table :=
  { hasCreatedAt := true, hasTopics := false, hasCountry := false, rows := [] }

/-- Criteria for the header counterexample. -/
def cx4CritA : Criteria :=
  { selected_languages := [], star_range := (0, 0), date_range := some (0, 0) }

/-- A repository whose name is numeric text, which the written CSV
reads back as a number. -/
def cx4RowB : Row :=
  { repositories := Cell.strv "123", language := Cell.strv "Go", stars_count := 0,
    forks_count := 0, contributors := 0, issues_count := 0, created_at := none,
    age := none, topics := Cell.na, country := Cell.na }

/-- A dataset containing the numeric-text repository name. -/
def cx4TableB : Table :=
  { hasCreatedAt := false, hasTopics := false, hasCountry := false, rows := [cx4RowB] }

/-- Pass-through criteria for cx4TableB. -/
def cx4CritB : Criteria :=
  { selected_languages := [], star_range := (0, 0), date_range := none }

/-- A one-row dataset with a present creation date, showing the
timestamp column coming back as text. -/
def cx4TableC : Table :=
  { hasCreatedAt := true, hasTopics := false, hasCountry := false,
    rows := [{ repositories := Cell.strv "c", language := Cell.strv "Go", stars_count := 0,
               forks_count := 0, contributors := 0, issues_count := 0, created_at := some 5,
               age := none, topics := Cell.na, country := Cell.na }] }

/-- Criteria keeping the dated row of cx4TableC. -/
def cx4CritC : Criteria :=
  { selected_languages := [], star_range := (0, 0), date_range := some (0, 10) }

/-- A dataset with created_at present on every row and CSV-safe text
fields, for the round-trip witness. -/
def c4wTable : Table :=
  { hasCreatedAt := true, hasTopics := false, hasCountry := false,
    rows := [{ repositories := Cell.strv "alpha", language := Cell.strv "Not Specified",
               stars_count := 0, forks_count := 2, contributors := 3, issues_count := 4,
               created_at := some 7, age := none, topics := Cell.na, country := Cell.na }] }

/-- Pass-through criteria for c4wTable with an active date filter. -/
def c4wCrit : Criteria :=
  { selected_languages := [], star_range := (0, 0), date_range := some (0, 10) }

/-- A raw table whose stars cell is malformed text that is not an NA
token, so astype raises. -/
def cx5Raw : RawTable :=
  { hasCreatedAt := false, hasTopics := false, hasCountry := false,
    rows := [{ repositories := Cell.strv "r", language := Cell.strv "Go",
               stars_count := Cell.strv "abc", forks_count := Cell.intv 0,
               contributors := Cell.intv 0, issues_count := Cell.intv 0,
               created_at := Cell.na, topics := Cell.na, country := Cell.na }] }

/-- A raw table whose stars field was the source text N/A, read by
read_csv as missing. -/
def c5NaRaw : RawTable :=
  { hasCreatedAt := false, hasTopics := false, hasCountry := false,
    rows := [{ repositories := Cell.strv "r", language := Cell.strv "Go",
               stars_count := readCell "N/A", forks_count := Cell.intv 1,
               contributors := Cell.intv 1, issues_count := Cell.intv 1,
               created_at := Cell.na, topics := Cell.na, country := Cell.na }] }

/-- The table c5NaRaw loads to: the N/A became 0, not an error. -/
def c5NaTable : Table :=
  { hasCreatedAt := false, hasTopics := false, hasCountry := false,
    rows := [{ repositories := Cell.strv "r", language := Cell.strv "Go", stars_count := 0,
               forks_count := 1, contributors := 1, issues_count := 1, created_at := none,
               age := none, topics := Cell.na, country := Cell.na }] }

/-- A two-row table with a created_at column, for the filter-order
witness. -/
def c6Table : Table :=
  { hasCreatedAt := true, hasTopics := false, hasCountry := false,
    rows := [{ repositories := Cell.strv "a", language := Cell.strv "Go", stars_count := 5,
               forks_count := 0, contributors := 0, issues_count := 0, created_at := some 3,
               age := none, topics := Cell.na, country := Cell.na },
             { repositories := Cell.strv "b", language := Cell.strv "Rust", stars_count := 20,
               forks_count := 0, contributors := 0, issues_count := 0, created_at := none,
               age := none, topics := Cell.na, country := Cell.na }] }

/-- Criteria with all three filters active, for the filter-order
witness. -/
def c6Crit : Criteria :=
  { selected_languages := ["Go"], star_range := (0, 10), date_range := some (0, 10) }

/-- Rows with a tie on stars, for the top-repositories witness. -/
def c7List : List Row :=
  [{ repositories := Cell.strv "a", language := Cell.strv "Go", stars_count := 4,
     forks_count := 0, contributors := 0, issues_count := 0, created_at := none,
     age := none, topics := Cell.na, country := Cell.na },
   { repositories := Cell.strv "b", language := Cell.strv "Go", stars_count := 9,
     forks_count := 0, contributors := 0, issues_count := 0, created_at := none,
     age := none, topics := Cell.na, country := Cell.na },
   { repositories := Cell.strv "c", language := Cell.strv "Go", stars_count := 9,
     forks_count := 0, contributors := 0, issues_count := 0, created_at := none,
     age := none, topics := Cell.na, country := Cell.na }]

/-- A raw table without created_at but with topics and country, for the
degradation witness. -/
def c8Raw : RawTable :=
  { hasCreatedAt := false, hasTopics := true, hasCountry := true,
    rows := [{ repositories := Cell.strv "r", language := Cell.strv "Go",
               stars_count := Cell.intv 5, forks_count := Cell.intv 1,
               contributors := Cell.intv 1, issues_count := Cell.intv 1,
               created_at := Cell.na, topics := Cell.strv "web api",
               country := Cell.strv "France" }] }

/-- The table c8Raw loads to. -/
def c8Table : Table :=
  { hasCreatedAt := false, hasTopics := true, hasCountry := true,
    rows := [{ repositories := Cell.strv "r", language := Cell.strv "Go", stars_count := 5,
               forks_count := 1, contributors := 1, issues_count := 1, created_at := none,
               age := none, topics := Cell.strv "web api", country := Cell.strv "France" }] }

/-- Pass-through criteria for the degradation witness. -/
def c8Crit : Criteria :=
  { selected_languages := [], star_range := (0, 10), date_range := none }

/-- A raw table that loads fine, for the empty-filter witness. -/
def c10Raw : RawTable :=
  { hasCreatedAt := false, hasTopics := false, hasCountry := false,
    rows := [{ repositories := Cell.strv "r", language := Cell.strv "Go",
               stars_count := Cell.intv 5, forks_count := Cell.intv 1,
               contributors := Cell.intv 1, issues_count := Cell.intv 1,
               created_at := Cell.na, topics := Cell.na, country := Cell.na }] }

/-- The table c10Raw loads to. -/
def c10Table : Table :=
  { hasCreatedAt := false, hasTopics := false, hasCountry := false,
    rows := [{ repositories := Cell.strv "r", language := Cell.strv "Go", stars_count := 5,
               forks_count := 1, contributors := 1, issues_count := 1, created_at := none,
               age := none, topics := Cell.na, country := Cell.na }] }

/-- A star range no row of c10Table satisfies. -/
def c10Crit : Criteria :=
  { selected_languages := [], star_range := (99, 99), date_range := none }

section DigitLemmas

theorem digitChar_isDigit (d : Nat) : (digitChar d).isDigit = true := by
  unfold digitChar
  split <;> decide

theorem digitVal_digitChar (d : Nat) (h : d < 10) : digitVal (digitChar d) = d := by
  interval_cases d <;> decide

theorem natDigitsAux_ne_nil : ∀ (fuel n : Nat), natDigitsAux fuel n ≠ []
  | 0, n => by simp [natDigitsAux]
  | fuel + 1, n => by
    rw [natDigitsAux]
    split
    · simp
    · simp

theorem natDigits_ne_nil (n : Nat) : natDigits n ≠ [] := natDigitsAux_ne_nil n n

theorem natDigitsAux_all_isDigit :
    ∀ (fuel n : Nat), (natDigitsAux fuel n).all Char.isDigit = true := by
  intro fuel
  induction fuel with
  | zero => intro n; simp [natDigitsAux, digitChar_isDigit]
  | succ fuel ih =>
    intro n
    rw [natDigitsAux]
    split
    · simp [digitChar_isDigit]
    · simp only [List.all_append]
      rw [ih (n / 10)]
      simp [digitChar_isDigit]

theorem natDigits_all_isDigit (n : Nat) : (natDigits n).all Char.isDigit = true :=
  natDigitsAux_all_isDigit n n

theorem foldl_digitsVal (cs : List Char) (a : Nat) :
    cs.foldl (fun n c => n * 10 + digitVal c) a = a * 10 ^ cs.length + digitsVal cs := by
  induction cs generalizing a with
  | nil => simp [digitsVal]
  | cons c cs ih =>
    simp only [List.foldl_cons, List.length_cons, digitsVal]
    rw [ih, ih (0 * 10 + digitVal c)]
    ring

theorem digitsVal_append_singleton (cs : List Char) (c : Char) :
    digitsVal (cs ++ [c]) = digitsVal cs * 10 + digitVal c := by
  unfold digitsVal
  rw [List.foldl_append]
  simp

theorem digitsVal_natDigitsAux :
    ∀ (fuel n : Nat), n ≤ fuel → digitsVal (natDigitsAux fuel n) = n := by
  intro fuel
  induction fuel with
  | zero =>
    intro n h
    interval_cases n
    decide
  | succ fuel ih =>
    intro n h
    rw [natDigitsAux]
    by_cases h10 : n < 10
    · rw [if_pos h10]
      simp only [digitsVal, List.foldl_cons, List.foldl_nil]
      rw [Nat.zero_mul, Nat.zero_add, digitVal_digitChar _ h10]
    · rw [if_neg h10]
      rw [digitsVal_append_singleton, ih (n / 10) (by omega), digitVal_digitChar _ (by omega)]
      omega

theorem digitsVal_natDigits (n : Nat) : digitsVal (natDigits n) = n :=
  digitsVal_natDigitsAux n n (le_refl n)

theorem parseDigits_natDigits (n : Nat) : parseDigits (natDigits n) = some n := by
  unfold parseDigits
  rw [if_pos ⟨natDigits_ne_nil n, natDigits_all_isDigit n⟩, digitsVal_natDigits]

theorem natDigits_head_isDigit (n : Nat) :
    ∃ c cs, natDigits n = c :: cs ∧ c.isDigit = true := by
  rcases hd : natDigits n with _ | ⟨c, cs⟩
  · exact absurd hd (natDigits_ne_nil n)
  · refine ⟨c, cs, rfl, ?_⟩
    have := natDigits_all_isDigit n
    rw [hd] at this
    simp only [List.all_cons, Bool.and_eq_true] at this
    exact this.1

theorem parseIntStr_mk (l : List Char) :
    parseIntStr (String.mk l) =
      if l.head? = some '-' then (parseDigits l.tail).map (fun n : Nat => -(n : Int))
      else (parseDigits l).map (fun n : Nat => (n : Int)) := rfl

theorem parseIntStr_renderInt (n : Int) : parseIntStr (renderInt n) = some n := by
  obtain ⟨c, cs, hd, hdig⟩ := natDigits_head_isDigit n.natAbs
  have hcne : ¬(c :: cs).head? = some '-' := by
    simp only [List.head?, Option.some.injEq]
    intro h
    rw [h] at hdig
    exact absurd hdig (by decide)
  by_cases hneg : n < 0
  · rw [renderInt, if_pos hneg, parseIntStr_mk]
    rw [if_pos (show ('-' :: natDigits n.natAbs).head? = some '-' from rfl)]
    rw [List.tail_cons, parseDigits_natDigits]
    simp only [Option.map_some', Option.some.injEq]
    omega
  · rw [renderInt, if_neg hneg, parseIntStr_mk, hd, if_neg hcne]
    rw [← hd, parseDigits_natDigits]
    simp only [Option.map_some', Option.some.injEq]
    omega

theorem splitOnP_go_of_forall {α : Type} (P : α → Bool) :
    ∀ (l acc : List α), (∀ x ∈ l, P x = false) →
      List.splitOnP.go P l acc = [acc.reverse ++ l] := by
  intro l
  induction l with
  | nil =>
    intro acc h
    simp [List.splitOnP.go]
  | cons a t ih =>
    intro acc h
    rw [List.splitOnP.go]
    rw [if_neg (by rw [h a (List.mem_cons_self a t)]; exact Bool.false_ne_true)]
    rw [ih (a :: acc) (fun x hx => h x (List.mem_cons_of_mem _ hx))]
    simp

theorem splitOn_of_not_mem {α : Type} [BEq α] [LawfulBEq α] {a : α} {l : List α}
    (h : a ∉ l) : l.splitOn a = [l] := by
  unfold List.splitOn List.splitOnP
  rw [splitOnP_go_of_forall _ l []]
  · simp
  · intro x hx
    rw [beq_eq_false_iff_ne]
    intro hxa
    exact h (hxa ▸ hx)

theorem dateChars_head (d : Int) :
    ∃ c cs, dateChars d = c :: cs ∧ c.isDigit = true := by
  obtain ⟨c, cs, hd, hdig⟩ := natDigits_head_isDigit (d.natAbs / 512)
  refine ⟨c, cs ++ ('-' :: natDigits (d.natAbs % 512 / 32))
    ++ ('-' :: natDigits (d.natAbs % 32)), ?_, hdig⟩
  unfold dateChars
  rw [hd]
  simp [List.cons_append, List.append_assoc]

theorem dash_mem_dateChars (d : Int) : '-' ∈ dateChars d := by
  unfold dateChars
  exact List.mem_append.mpr (Or.inl (List.mem_append.mpr
    (Or.inr (List.mem_cons_self '-' _))))

theorem dateChars_chars (d : Int) :
    ∀ c ∈ dateChars d, c.isDigit = true ∨ c = '-' := by
  intro c hc
  unfold dateChars at hc
  rcases List.mem_append.mp hc with h1 | h1
  · rcases List.mem_append.mp h1 with h2 | h2
    · exact Or.inl (List.all_eq_true.mp (natDigits_all_isDigit _) c h2)
    · rcases List.mem_cons.mp h2 with rfl | h3
      · exact Or.inr rfl
      · exact Or.inl (List.all_eq_true.mp (natDigits_all_isDigit _) c h3)
  · rcases List.mem_cons.mp h1 with rfl | h3
    · exact Or.inr rfl
    · exact Or.inl (List.all_eq_true.mp (natDigits_all_isDigit _) c h3)

theorem parseIntStr_renderDate (d : Int) : parseIntStr (renderDate d) = none := by
  obtain ⟨c, cs, hd, hdig⟩ := dateChars_head d
  have hcne : ¬(dateChars d).head? = some '-' := by
    rw [hd]
    simp only [List.head?, Option.some.injEq]
    intro h
    rw [h] at hdig
    exact absurd hdig (by decide)
  have hpd : parseDigits (dateChars d) = none := by
    unfold parseDigits
    rw [if_neg]
    intro hpair
    have := List.all_eq_true.mp hpair.2 '-' (dash_mem_dateChars d)
    exact absurd this (by decide)
  rw [show renderDate d = String.mk (dateChars d) from rfl, parseIntStr_mk,
    if_neg hcne, hpd]
  rfl

theorem parseFloatStr_renderDate (d : Int) : parseFloatStr (renderDate d) = none := by
  obtain ⟨c, cs, hd, hdig⟩ := dateChars_head d
  have hcne : ¬(dateChars d).head? = some '-' := by
    rw [hd]
    simp only [List.head?, Option.some.injEq]
    intro h
    rw [h] at hdig
    exact absurd hdig (by decide)
  have hdot : '.' ∉ dateChars d := by
    intro hmem
    rcases dateChars_chars d '.' hmem with h1 | h1 <;> exact absurd h1 (by decide)
  have hsplit : (dateChars d).splitOn '.' = [dateChars d] := splitOn_of_not_mem hdot
  show (if (dateChars d).head? = some '-' then _ else
    (match (dateChars d).splitOn '.' with
      | [a, b] =>
        if a ≠ [] ∧ b ≠ [] ∧ a.all Char.isDigit ∧ b.all Char.isDigit then
          some ((1 : Rat) * ((digitsVal a : Rat) + (digitsVal b : Rat) / ((10 : Rat) ^ b.length)))
        else none
      | _ => none)) = none
  rw [if_neg hcne, hsplit]

theorem not_naToken_of_digit_dash (s : String) (hne : s.data ≠ [])
    (hall : s.data.all (fun c => c.isDigit || decide (c = '-')) = true) :
    naTokens.contains s = false := by
  by_contra hcon
  rw [Bool.not_eq_false] at hcon
  have hmem : s ∈ naTokens := List.elem_iff.mp hcon
  fin_cases hmem
  all_goals first
    | exact hne rfl
    | exact absurd hall (by decide)

theorem renderDate_not_naToken (d : Int) : naTokens.contains (renderDate d) = false := by
  refine not_naToken_of_digit_dash (renderDate d) ?_ ?_
  · obtain ⟨c, cs, hd, -⟩ := dateChars_head d
    show dateChars d ≠ []
    rw [hd]
    simp
  · refine List.all_eq_true.mpr (fun c hc => ?_)
    rcases dateChars_chars d c hc with h1 | h1 <;> simp [h1]

theorem readCell_renderDate (d : Int) : readCell (renderDate d) = Cell.strv (renderDate d) := by
  unfold readCell
  rw [parseIntStr_renderDate, parseFloatStr_renderDate, renderDate_not_naToken]
  rfl

theorem readCell_renderCell (c : Cell) (h : cellSafe c = true) :
    readCell (renderCell c) = textifyCell c := by
  cases c with
  | na => decide
  | intv n =>
    show readCell (renderInt n) = Cell.intv n
    unfold readCell
    rw [parseIntStr_renderInt]
  | floatv q => exact absurd h (by simp [cellSafe])
  | strv s =>
    simp only [cellSafe, Bool.and_eq_true, Option.isNone_iff_eq_none, Bool.not_eq_true'] at h
    show readCell s = Cell.strv s
    unfold readCell
    rw [h.1.1, h.1.2, h.2]
    simp
  | datev d =>
    show readCell (renderDate d) = Cell.strv (renderDate d)
    exact readCell_renderDate d

end DigitLemmas

section LoadLemmas

theorem normalizeRows_ok_forall {hasCA : Bool} :
    ∀ {l : List RawRow} {nl : List Row}, normalizeRows hasCA l = Except.ok nl →
      ∀ y ∈ nl, ∃ x ∈ l, normalizeRow hasCA x = Except.ok y := by
  intro l
  induction l with
  | nil =>
    intro nl h y hy
    simp only [normalizeRows] at h
    injection h with h2
    subst h2
    exact absurd hy (List.not_mem_nil y)
  | cons a l ih =>
    intro nl h y hy
    simp only [normalizeRows] at h
    cases hna : normalizeRow hasCA a with
    | error e =>
      simp only [hna] at h
      exact Except.noConfusion h
    | ok nr =>
      cases hnl : normalizeRows hasCA l with
      | error e =>
        simp only [hna, hnl] at h
        exact Except.noConfusion h
      | ok nrs =>
        simp only [hna, hnl] at h
        injection h with h2
        subst h2
        rcases List.mem_cons.mp hy with rfl | hy2
        · exact ⟨a, List.mem_cons_self a l, hna⟩
        · obtain ⟨x, hx, hxok⟩ := ih hnl y hy2
          exact ⟨x, List.mem_cons_of_mem _ hx, hxok⟩

theorem load_data_ok {t : RawTable} {nt : Table} (h : load_data t = Except.ok nt) :
    nt.hasCreatedAt = t.hasCreatedAt ∧ nt.hasTopics = t.hasTopics ∧
    nt.hasCountry = t.hasCountry ∧
    normalizeRows t.hasCreatedAt t.rows = Except.ok nt.rows := by
  unfold load_data at h
  cases hn : normalizeRows t.hasCreatedAt t.rows with
  | error e =>
    simp only [hn] at h
    exact Except.noConfusion h
  | ok rows =>
    simp only [hn] at h
    injection h with h2
    subst h2
    exact ⟨rfl, rfl, rfl, rfl⟩

theorem normalizeRow_ok {hasCA : Bool} {r : RawRow} {y : Row}
    (h : normalizeRow hasCA r = Except.ok y) :
    y.language = fillLanguage r.language ∧
    coerceCount r.stars_count = Except.ok y.stars_count ∧
    coerceCount r.forks_count = Except.ok y.forks_count ∧
    coerceCount r.contributors = Except.ok y.contributors ∧
    coerceCount r.issues_count = Except.ok y.issues_count ∧
    y.age = none := by
  cases hs : coerceCount r.stars_count with
  | error m =>
    simp only [normalizeRow, hs] at h
    exact Except.noConfusion h
  | ok s =>
    cases hf : coerceCount r.forks_count with
    | error m =>
      simp only [normalizeRow, hs, hf] at h
      exact Except.noConfusion h
    | ok f =>
      cases hc : coerceCount r.contributors with
      | error m =>
        simp only [normalizeRow, hs, hf, hc] at h
        exact Except.noConfusion h
      | ok c =>
        cases hi : coerceCount r.issues_count with
        | error m =>
          simp only [normalizeRow, hs, hf, hc, hi] at h
          exact Except.noConfusion h
        | ok i =>
          simp only [normalizeRow, hs, hf, hc, hi] at h
          injection h with h2
          subst h2
          exact ⟨rfl, rfl, rfl, rfl, rfl, rfl⟩

theorem coerceCount_nonneg {c : Cell} (hc : cellNonneg c = true) {v : Int}
    (h : coerceCount c = Except.ok v) : 0 ≤ v := by
  cases c with
  | na =>
    simp only [coerceCount] at h
    injection h with h2
    omega
  | intv n =>
    simp only [coerceCount] at h
    injection h with h2
    subst h2
    simpa [cellNonneg] using hc
  | floatv q =>
    simp only [coerceCount] at h
    injection h with h2
    subst h2
    simp only [cellNonneg, decide_eq_true_eq] at hc
    exact Int.tdiv_nonneg (Rat.num_nonneg.mpr hc) (Int.natCast_nonneg q.den)
  | strv s =>
    cases hp : parseIntStr s with
    | none =>
      simp only [coerceCount, hp] at h
      exact Except.noConfusion h
    | some n =>
      simp only [coerceCount, hp] at h
      injection h with h2
      subst h2
      simpa [cellNonneg, hp] using hc
  | datev d =>
    simp only [coerceCount] at h
    injection h with h2
    subst h2
    simpa [cellNonneg] using hc

theorem fillLanguage_ne_na (c : Cell) : fillLanguage c ≠ Cell.na := by
  unfold fillLanguage
  split
  · simp
  · assumption

end LoadLemmas

section FilterLemmas

theorem applyFilters_append (ps qs : List (Row → Bool)) (l : List Row) :
    applyFilters (ps ++ qs) l = applyFilters qs (applyFilters ps l) := by
  simp [applyFilters, List.foldl_append]

theorem applyFilters_eq_filter_all (ps : List (Row → Bool)) (l : List Row) :
    applyFilters ps l = l.filter (fun r => ps.all (fun p => p r)) := by
  induction ps generalizing l with
  | nil => simp [applyFilters]
  | cons p ps ih =>
    rw [show applyFilters (p :: ps) l = applyFilters ps (l.filter p) from rfl, ih,
      List.filter_filter]
    apply List.filter_congr
    intro a _
    simp only [List.all_cons]
    rw [Bool.and_comm]

theorem all_of_perm {ps qs : List (Row → Bool)} (h : ps.Perm qs) (r : Row) :
    ps.all (fun p => p r) = qs.all (fun p => p r) := by
  cases hq : qs.all (fun p => p r) with
  | true =>
    rw [List.all_eq_true] at hq ⊢
    exact fun x hx => hq x (h.subset hx)
  | false =>
    cases hp : ps.all (fun p => p r) with
    | false => rfl
    | true =>
      rw [List.all_eq_true] at hp
      have ht : qs.all (fun p => p r) = true :=
        List.all_eq_true.mpr (fun x hx => hp x (h.symm.subset hx))
      rw [ht] at hq
      exact Bool.noConfusion hq

theorem dateInRange_true {dr : Option (Int × Int)} {r : Row} (h : dateInRange dr r = true) :
    ∃ d lo hi, r.created_at = some d ∧ dr = some (lo, hi) ∧ lo ≤ d ∧ d ≤ hi := by
  unfold dateInRange at h
  split at h
  · rename_i s1 s2 d p heq
    simp only [Bool.and_eq_true, decide_eq_true_eq] at h
    exact ⟨d, p.1, p.2, heq, rfl, h.1, h.2⟩
  · exact Bool.noConfusion h

theorem langMember_true {sel : List String} {c : Cell} (h : langMember sel c = true) :
    ∃ s, c = Cell.strv s ∧ s ∈ sel := by
  unfold langMember at h
  split at h
  · rename_i s
    exact ⟨s, rfl, List.elem_iff.mp h⟩
  · exact Bool.noConfusion h

theorem filtered_eq_applyFilters (t : Table) (c : Criteria) :
    filtered_data t c = applyFilters (activeFilters t c) t.rows := by
  cases hl : langActive c <;> cases hd : dateActive t c <;>
    simp [filtered_data, activeFilters, applyFilters, hl, hd]

end FilterLemmas

section TopLemmas

theorem topIndexed_pairwise_le (l : List Row) :
    (topIndexed l).Pairwise nlargestRel := by
  have hs : (l.enum.insertionSort nlargestRel).Pairwise nlargestRel :=
    List.sorted_insertionSort nlargestRel l.enum
  exact hs.sublist (List.take_sublist 10 _)

theorem topIndexed_fst_nodup (l : List Row) :
    ((topIndexed l).map Prod.fst).Nodup := by
  have henum : (l.enum.map Prod.fst).Nodup := by
    rw [List.enum_map_fst]
    exact List.nodup_range l.length
  have hperm : List.Perm ((l.enum.insertionSort nlargestRel).map Prod.fst)
      (l.enum.map Prod.fst) :=
    (List.perm_insertionSort nlargestRel l.enum).map Prod.fst
  have hsorted : ((l.enum.insertionSort nlargestRel).map Prod.fst).Nodup :=
    hperm.nodup_iff.mpr henum
  have hsub : List.Sublist ((topIndexed l).map Prod.fst)
      ((l.enum.insertionSort nlargestRel).map Prod.fst) := by
    rw [topIndexed, List.map_take]
    exact List.take_sublist 10 _
  exact hsorted.sublist hsub

theorem topIndexed_mem_enum (l : List Row) {p : Nat × Row} (hp : p ∈ topIndexed l) :
    p ∈ l.enum := by
  have h1 : p ∈ l.enum.insertionSort nlargestRel :=
    List.Sublist.mem hp (List.take_sublist 10 _)
  exact (List.mem_insertionSort nlargestRel).mp h1

end TopLemmas

/-- C1 (amended): for every table that loads, no normalized record has a
missing language, and each of the four count fields is a non-negative
integer provided every numeric source cell of those columns is
non-negative; the load itself never forces non-negativity. -/
theorem C1_load_invariant (t : RawTable) (nt : Table)
    (hload : load_data t = Except.ok nt)
    (hsrc : ∀ r ∈ t.rows, cellNonneg r.stars_count = true ∧ cellNonneg r.forks_count = true ∧
      cellNonneg r.contributors = true ∧ cellNonneg r.issues_count = true) :
    ∀ y ∈ nt.rows, y.language ≠ Cell.na ∧
      0 ≤ y.stars_count ∧ 0 ≤ y.forks_count ∧ 0 ≤ y.contributors ∧ 0 ≤ y.issues_count := by
  intro y hy
  obtain ⟨-, -, -, hrows⟩ := load_data_ok hload
  obtain ⟨x, hx, hxok⟩ := normalizeRows_ok_forall hrows y hy
  obtain ⟨hlang, hs, hf, hc, hi, -⟩ := normalizeRow_ok hxok
  obtain ⟨ns, nf, nc, ni⟩ := hsrc x hx
  refine ⟨?_, coerceCount_nonneg ns hs, coerceCount_nonneg nf hf,
    coerceCount_nonneg nc hc, coerceCount_nonneg ni hi⟩
  rw [hlang]
  exact fillLanguage_ne_na _

/-- C1 counterexample: a raw table with a negative stars cell loads
without complaint and keeps the negative count, so the invariant as
claimed fails. -/
theorem C1_counterexample :
    (load_data cxRawNeg).map (fun nt => nt.rows.map Row.stars_count) = Except.ok [-1] ∧
    ¬(0 : Int) ≤ -1 := by
  constructor
  · decide
  · decide

/-- C1 witness: a concrete table exercising the fills and coercions. -/
theorem C1_witness :
    load_data c1wRaw = Except.ok c1wTable ∧
    (∀ y ∈ c1wTable.rows, y.language ≠ Cell.na ∧
      0 ≤ y.stars_count ∧ 0 ≤ y.forks_count ∧ 0 ≤ y.contributors ∧ 0 ≤ y.issues_count) :=
  ⟨by decide, C1_load_invariant c1wRaw c1wTable (by decide) (by decide)⟩

/-- C2: every record of the Filtered Dataset satisfies all active
predicates: exact string membership in the selection when one is
active, inclusive star bounds always, and, when the date filter is
active, inclusive date bounds with absent created_at excluded. -/
theorem C2_filtered_satisfy (t : Table) (c : Criteria) (r : Row)
    (hr : r ∈ filtered_data t c) :
    (langActive c = true → ∃ s, r.language = Cell.strv s ∧ s ∈ c.selected_languages) ∧
    (c.star_range.1 ≤ r.stars_count ∧ r.stars_count ≤ c.star_range.2) ∧
    (dateActive t c = true →
      ∃ d lo hi, r.created_at = some d ∧ c.date_range = some (lo, hi) ∧ lo ≤ d ∧ d ≤ hi) := by
  simp only [filtered_data] at hr
  have hdate : dateActive t c = true → dateInRange c.date_range r = true := by
    intro hd
    rw [if_pos hd] at hr
    exact (List.mem_filter.mp hr).2
  have hr2 : r ∈ (if langActive c then
      t.rows.filter (fun x => langMember c.selected_languages x.language)
      else t.rows).filter (starInRange c.star_range) := by
    by_cases hd : dateActive t c = true
    · rw [if_pos hd] at hr
      exact (List.mem_filter.mp hr).1
    · rwa [if_neg hd] at hr
  obtain ⟨hr1, hstar⟩ := List.mem_filter.mp hr2
  simp only [starInRange, Bool.and_eq_true, decide_eq_true_eq] at hstar
  refine ⟨?_, hstar, ?_⟩
  · intro hl
    rw [if_pos hl] at hr1
    exact langMember_true (List.mem_filter.mp hr1).2
  · intro hd
    exact dateInRange_true (hdate hd)

/-- C2 witness: a concrete row passing all three active filters. -/
theorem C2_witness :
    c2Row ∈ filtered_data c2Table c2Crit ∧
    ((langActive c2Crit = true →
      ∃ s, c2Row.language = Cell.strv s ∧ s ∈ c2Crit.selected_languages) ∧
    (c2Crit.star_range.1 ≤ c2Row.stars_count ∧ c2Row.stars_count ≤ c2Crit.star_range.2) ∧
    (dateActive c2Table c2Crit = true →
      ∃ d lo hi, c2Row.created_at = some d ∧ c2Crit.date_range = some (lo, hi) ∧
        lo ≤ d ∧ d ≤ hi)) :=
  ⟨by decide, C2_filtered_satisfy c2Table c2Crit c2Row (by decide)⟩

/-- C3 (amended): with the selection empty or containing All and the
star range at the stars minimum and maximum, the pipeline returns the
dataset unchanged provided the date filter is inactive (no created_at
column) or every row passes it; a dataset carrying created_at with an
absent value loses that row, because the always-active date filter
excludes rows with missing dates. -/
theorem C3_full_range (t : Table) (c : Criteria)
    (hlang : c.selected_languages = [] ∨ "All" ∈ c.selected_languages)
    (hmin : (t.rows.map Row.stars_count).min? = some c.star_range.1)
    (hmax : (t.rows.map Row.stars_count).max? = some c.star_range.2)
    (hdate : dateActive t c = false ∨ ∀ r ∈ t.rows, dateInRange c.date_range r = true) :
    filtered_data t c = t.rows := by
  have hlA : langActive c = false := by
    unfold langActive
    rcases hlang with h | h
    · simp [h]
    · have hAll : c.selected_languages.contains "All" = true := List.elem_iff.mpr h
      rw [hAll]
      simp
  have hstar : ∀ r ∈ t.rows, starInRange c.star_range r = true := by
    intro r hrm
    have hmem : r.stars_count ∈ t.rows.map Row.stars_count :=
      List.mem_map_of_mem Row.stars_count hrm
    have h1 : c.star_range.1 ≤ r.stars_count :=
      (List.le_min?_iff (fun a b x => le_min_iff) hmin).mp (le_refl _) _ hmem
    have h2 : r.stars_count ≤ c.star_range.2 :=
      (List.max?_le_iff (fun a b x => max_le_iff) hmax).mp (le_refl _) _ hmem
    simp [starInRange, h1, h2]
  simp only [filtered_data, hlA, Bool.false_eq_true, if_false]
  rw [List.filter_eq_self.mpr hstar]
  rcases hdate with hd | hd
  · rw [hd]
    simp
  · by_cases hda : dateActive t c = true
    · rw [if_pos hda]
      exact List.filter_eq_self.mpr hd
    · rw [if_neg hda]

/-- C3 counterexample: a dataset with a created_at column and one
absent date, filtered with All languages, the full star range and the
date widget spanning all present dates, loses the dateless row. -/
theorem C3_counterexample :
    (cx3Table.rows.map Row.stars_count).min? = some cx3Crit.star_range.1 ∧
    (cx3Table.rows.map Row.stars_count).max? = some cx3Crit.star_range.2 ∧
    cx3Crit.selected_languages = ["All"] ∧
    filtered_data cx3Table cx3Crit ≠ cx3Table.rows := by
  exact ⟨by decide, by decide, rfl, by decide⟩

/-- C3 witness: a dataset without created_at passes through whole. -/
theorem C3_witness : filtered_data c3wTable c3wCrit = c3wTable.rows :=
  C3_full_range c3wTable c3wCrit (Or.inl rfl) (by decide) (by decide) (Or.inl (by decide))

/-- C6: the three masks compose by logical AND: applying the active
filters in any order, one boolean-indexing step each, produces the same
Filtered Dataset as the source order. -/
theorem C6_filter_order (t : Table) (c : Criteria) (ps : List (Row → Bool))
    (hperm : ps.Perm (activeFilters t c)) :
    applyFilters ps t.rows = filtered_data t c := by
  rw [filtered_eq_applyFilters, applyFilters_eq_filter_all, applyFilters_eq_filter_all]
  apply List.filter_congr
  intro r _
  exact all_of_perm hperm r

/-- C6 witness: swapping the language and star filters on a concrete
dataset changes nothing. -/
theorem C6_witness :
    applyFilters [starInRange c6Crit.star_range,
      (fun r => langMember c6Crit.selected_languages r.language),
      dateInRange c6Crit.date_range] c6Table.rows = filtered_data c6Table c6Crit := by
  apply C6_filter_order
  have h : activeFilters c6Table c6Crit =
      [(fun r => langMember c6Crit.selected_languages r.language),
       starInRange c6Crit.star_range, dateInRange c6Crit.date_range] := rfl
  rw [h]
  exact List.Perm.swap _ _ _

/-- C7: the top-repositories aggregate has length min(10, n), is
sorted descending by stars, breaks star ties by original row order
(smaller original position first), and every entry of its indexed form
points back at the corresponding original row. -/
theorem C7_top_repos (l : List Row) :
    (top_repos l).length = min 10 l.length ∧
    (top_repos l).Pairwise (fun a b => b.stars_count ≤ a.stars_count) ∧
    (topIndexed l).Pairwise (fun p q =>
      q.2.stars_count ≤ p.2.stars_count ∧ (p.2.stars_count = q.2.stars_count → p.1 < q.1)) ∧
    (∀ p ∈ topIndexed l, l[p.1]? = some p.2) ∧
    top_repos l = (topIndexed l).map Prod.snd := by
  have hpl := topIndexed_pairwise_le l
  have hnd := topIndexed_fst_nodup l
  have hne : (topIndexed l).Pairwise (fun p q => p.1 ≠ q.1) := List.pairwise_map.mp hnd
  have hmain : (topIndexed l).Pairwise (fun p q =>
      q.2.stars_count ≤ p.2.stars_count ∧ (p.2.stars_count = q.2.stars_count → p.1 < q.1)) := by
    refine (hpl.and hne).imp ?_
    intro a b hab
    obtain ⟨hle, hneq⟩ := hab
    unfold nlargestRel at hle
    constructor
    · omega
    · intro heq
      rcases hle with h1 | h2
      · omega
      · rcases Nat.lt_or_ge a.1 b.1 with h | h
        · exact h
        · omega
  refine ⟨?_, ?_, hmain, ?_, rfl⟩
  · have hlen : (l.enum.insertionSort nlargestRel).length = l.length := by
      rw [(List.perm_insertionSort nlargestRel l.enum).length_eq, List.enum_length]
    simp [top_repos, topIndexed, List.length_take, hlen]
  · exact List.pairwise_map.mpr (hmain.imp (fun h => h.1))
  · intro p hp
    exact List.mem_enum_iff_getElem?.mp (topIndexed_mem_enum l hp)

/-- C7 witness: on a concrete list with a star tie, the aggregate keeps
the tied rows in original order and points back at the right
positions. -/
theorem C7_witness :
    (top_repos c7List).length = min 10 c7List.length ∧
    (1, c7List.get ⟨1, by decide⟩) ∈ topIndexed c7List ∧
    c7List[1]? = some (c7List.get ⟨1, by decide⟩) :=
  ⟨(C7_top_repos c7List).1, by decide,
    (C7_top_repos c7List).2.2.2.1 (1, c7List.get ⟨1, by decide⟩) (by decide)⟩

/-- C9: the filter pipeline never mutates the Normalized Dataset: after
the copy on line 96, the filter reassignments and the tab-three column
assignments, the data frame holds its original rows, and the
filtered_data variable shows exactly the pipeline result with the age
column applied. -/
theorem C9_no_mutation (t : Table) (c : Criteria) (now : Int) :
    (scriptFrames t c now).dataRows = t.rows ∧
    (scriptFrames t c now).view = tab3Mutations t now (filtered_data t c) := by
  cases hca : t.hasCreatedAt <;> cases hl : langActive c <;> cases hds : c.date_range.isSome <;>
    simp [scriptFrames, filtered_data, tab3Mutations, dateActive, PState.filterStep,
      PState.setColStep, PState.view, hca, hl, hds]

/-- C10: when the load succeeds on a non-empty table but no record
satisfies the criteria, the first three metrics render, the
average-contributors metric raises on int of the NaN mean, and the page
degrades to the generic error message; the metric completing the strip
is never rendered for an empty Filtered Dataset. -/
theorem C10_empty_filtered (s : Source) (c : Criteria) (now : Int) (t : Table)
    (hload : loadFrom s = Except.ok t)
    (hne : t.rows ≠ [])
    (hempty : filtered_data t c = []) :
    runApp s c now =
      [RenderItem.titleBlock, RenderItem.metricTotalRepos 0,
       RenderItem.metricTotalStars 0, RenderItem.metricTotalForks 0] ++
        errorItems (LoadErr.valueError "cannot convert float NaN to integer") ∧
    (∀ v, RenderItem.metricAvgContributors v ∉ runApp s c now) := by
  have hmin : ∃ v, intMinStars t.rows = Except.ok v := by
    unfold intMinStars
    cases hm : (t.rows.map Row.stars_count).min? with
    | none =>
      rw [List.min?_eq_none_iff] at hm
      exact absurd (List.map_eq_nil_iff.mp hm) hne
    | some v => exact ⟨v, rfl⟩
  obtain ⟨v, hv⟩ := hmin
  have hbody : appBody t c now =
      ([RenderItem.titleBlock, RenderItem.metricTotalRepos 0,
        RenderItem.metricTotalStars 0, RenderItem.metricTotalForks 0],
       some (LoadErr.valueError "cannot convert float NaN to integer")) := by
    unfold appBody
    rw [hv]
    simp [hempty, intMean]
  have hrun : runApp s c now =
      [RenderItem.titleBlock, RenderItem.metricTotalRepos 0,
       RenderItem.metricTotalStars 0, RenderItem.metricTotalForks 0] ++
        errorItems (LoadErr.valueError "cannot convert float NaN to integer") := by
    have hstep : runApp s c now =
        (match appBody t c now with
          | (items, none) => items
          | (items, some e) => items ++ errorItems e) := by
      unfold runApp
      rw [hload]
    rw [hstep, hbody]
  refine ⟨hrun, ?_⟩
  intro v'
  rw [hrun]
  simp [errorItems]

/-- C10 witness: a one-row table filtered by an unsatisfiable star
range degrades to the generic error after three metrics. -/
theorem C10_witness :
    loadFrom (Source.ok c10Raw) = Except.ok c10Table ∧
    runApp (Source.ok c10Raw) c10Crit 0 =
      [RenderItem.titleBlock, RenderItem.metricTotalRepos 0, RenderItem.metricTotalStars 0,
        RenderItem.metricTotalForks 0] ++
        errorItems (LoadErr.valueError "cannot convert float NaN to integer") :=
  ⟨by decide,
    (C10_empty_filtered (Source.ok c10Raw) c10Crit 0 c10Table
      (by decide) (by decide) (by decide)).1⟩

/-- C8: a missing, empty or unparsable source file yields exactly one
user-visible error element and nothing else on the page; a table
without a created_at column (that otherwise renders cleanly) only
skips the two date-dependent views while every other view renders and
no error appears. -/
theorem C8_error_policy (c : Criteria) (now : Int) (rt : RawTable) (nt : Table)
    (hca : rt.hasCreatedAt = false)
    (hload : load_data rt = Except.ok nt)
    (hne : nt.rows ≠ [])
    (hfne : filtered_data nt c ≠ []) :
    runApp Source.notFound c now =
      [RenderItem.errorBox "Dataset file not found. Please make sure the file exists."] ∧
    runApp Source.emptyFile c now =
      [RenderItem.errorBox "The dataset file is empty. Please provide a valid dataset."] ∧
    runApp Source.malformed c now =
      [RenderItem.errorBox "Error parsing the dataset file. Please check the file format."] ∧
    RenderItem.monthlyTrendChart ∉ runApp (Source.ok rt) c now ∧
    RenderItem.ageHistogram ∉ runApp (Source.ok rt) c now ∧
    (∀ m, RenderItem.errorBox m ∉ runApp (Source.ok rt) c now) ∧
    RenderItem.pieChart ∈ runApp (Source.ok rt) c now ∧
    RenderItem.scatterStarsForks ∈ runApp (Source.ok rt) c now ∧
    RenderItem.topReposTable ∈ runApp (Source.ok rt) c now ∧
    RenderItem.scatterIssuesContrib ∈ runApp (Source.ok rt) c now ∧
    RenderItem.footer ∈ runApp (Source.ok rt) c now := by
  have hflag : nt.hasCreatedAt = false := by
    rw [(load_data_ok hload).1, hca]
  obtain ⟨vmin, hvmin⟩ : ∃ v, intMinStars nt.rows = Except.ok v := by
    unfold intMinStars
    cases hm : (nt.rows.map Row.stars_count).min? with
    | none =>
      rw [List.min?_eq_none_iff] at hm
      exact absurd (List.map_eq_nil_iff.mp hm) hne
    | some v => exact ⟨v, rfl⟩
  obtain ⟨m, hmean⟩ : ∃ m,
      intMean ((filtered_data nt c).map Row.contributors) = Except.ok m := by
    unfold intMean
    rw [if_neg (by simp [hfne])]
    exact ⟨_, rfl⟩
  have hbody : appBody nt c now =
      ([RenderItem.titleBlock,
        RenderItem.metricTotalRepos (filtered_data nt c).length,
        RenderItem.metricTotalStars ((filtered_data nt c).map Row.stars_count).sum,
        RenderItem.metricTotalForks ((filtered_data nt c).map Row.forks_count).sum]
        ++ [RenderItem.metricAvgContributors m,
            RenderItem.pieChart,
            RenderItem.scatterStarsForks,
            RenderItem.topReposTable,
            RenderItem.scatterIssuesContrib]
        ++ (if nt.hasCreatedAt then
              [RenderItem.monthlyTrendChart, RenderItem.ageHistogram] else [])
        ++ (if nt.hasCountry then [RenderItem.choropleth] else [])
        ++ (if nt.hasTopics then [RenderItem.wordCloudView] else [])
        ++ [RenderItem.downloadButton (downloadCsv nt c now), RenderItem.footer],
       none) := by
    unfold appBody
    simp only [hvmin, hmean]
  have hloadFrom : loadFrom (Source.ok rt) = Except.ok nt := hload
  have hrun : runApp (Source.ok rt) c now =
      [RenderItem.titleBlock,
        RenderItem.metricTotalRepos (filtered_data nt c).length,
        RenderItem.metricTotalStars ((filtered_data nt c).map Row.stars_count).sum,
        RenderItem.metricTotalForks ((filtered_data nt c).map Row.forks_count).sum]
        ++ [RenderItem.metricAvgContributors m,
            RenderItem.pieChart,
            RenderItem.scatterStarsForks,
            RenderItem.topReposTable,
            RenderItem.scatterIssuesContrib]
        ++ (if nt.hasCreatedAt then
              [RenderItem.monthlyTrendChart, RenderItem.ageHistogram] else [])
        ++ (if nt.hasCountry then [RenderItem.choropleth] else [])
        ++ (if nt.hasTopics then [RenderItem.wordCloudView] else [])
        ++ [RenderItem.downloadButton (downloadCsv nt c now), RenderItem.footer] := by
    have hstep : runApp (Source.ok rt) c now =
        (match appBody nt c now with
          | (items, none) => items
          | (items, some e) => items ++ errorItems e) := by
      unfold runApp
      rw [hloadFrom]
    rw [hstep, hbody]
  refine ⟨rfl, rfl, rfl, ?_, ?_, ?_, ?_, ?_, ?_, ?_, ?_⟩
  · rw [hrun]
    cases hco : nt.hasCountry <;> cases hto : nt.hasTopics <;> simp [hflag, hco, hto]
  · rw [hrun]
    cases hco : nt.hasCountry <;> cases hto : nt.hasTopics <;> simp [hflag, hco, hto]
  · intro msg
    rw [hrun]
    cases hco : nt.hasCountry <;> cases hto : nt.hasTopics <;> simp [hflag, hco, hto]
  · rw [hrun]
    cases hco : nt.hasCountry <;> cases hto : nt.hasTopics <;> simp [hflag, hco, hto]
  · rw [hrun]
    cases hco : nt.hasCountry <;> cases hto : nt.hasTopics <;> simp [hflag, hco, hto]
  · rw [hrun]
    cases hco : nt.hasCountry <;> cases hto : nt.hasTopics <;> simp [hflag, hco, hto]
  · rw [hrun]
    cases hco : nt.hasCountry <;> cases hto : nt.hasTopics <;> simp [hflag, hco, hto]
  · rw [hrun]
    cases hco : nt.hasCountry <;> cases hto : nt.hasTopics <;> simp [hflag, hco, hto]

/-- C8 witness: the loader messages and the skipped date views on a
concrete table without created_at. -/
theorem C8_witness :
    runApp Source.notFound c8Crit 0 =
      [RenderItem.errorBox "Dataset file not found. Please make sure the file exists."] ∧
    RenderItem.monthlyTrendChart ∉ runApp (Source.ok c8Raw) c8Crit 0 ∧
    RenderItem.pieChart ∈ runApp (Source.ok c8Raw) c8Crit 0 := by
  have h := C8_error_policy c8Crit 0 c8Raw c8Table (by decide) (by decide)
    (by decide) (by decide)
  exact ⟨h.1, h.2.2.2.1, h.2.2.2.2.2.2.1⟩

/-- C4 (amended): the downloaded CSV has no index column; its header is
exactly the Normalized Dataset's columns with an age column appended
when created_at is present (and exactly the columns otherwise); and
re-parsing the written fields restores every cell except on the
created_at column — a present timestamp is written as its timestamp
text, which re-parses as that text, a plain string and not a timestamp
— provided no float cell occurs and no text field itself reads back as
an integer, a decimal, or an NA token. -/
theorem C4_download_roundtrip (t : Table) (c : Criteria) (now : Int)
    (hsafe : ∀ r ∈ tab3Mutations t now (filtered_data t c),
      ∀ cell ∈ rowCells t.hasCreatedAt t.hasTopics t.hasCountry t.hasCreatedAt r,
        cellSafe cell = true) :
    (downloadCsv t c now).header =
      Table.columns t ++ (if t.hasCreatedAt then ["age"] else []) ∧
    reparseCsv (downloadCsv t c now) = (inMemoryCells t c now).map (List.map textifyCell) ∧
    (∀ d : Int, textifyCell (Cell.datev d) = Cell.strv (renderDate d) ∧
      readCell (renderDate d) = Cell.strv (renderDate d) ∧
      Cell.strv (renderDate d) ≠ Cell.datev d) ∧
    (∀ cell : Cell, (∀ d : Int, cell ≠ Cell.datev d) → textifyCell cell = cell) := by
  refine ⟨rfl, ?_, fun d => ⟨rfl, readCell_renderDate d, by simp⟩, fun cell hcell => ?_⟩
  · unfold reparseCsv downloadCsv to_csv inMemoryCells
    simp only [List.map_map]
    apply List.map_congr_left
    intro r hr
    show ((rowCells t.hasCreatedAt t.hasTopics t.hasCountry t.hasCreatedAt r).map
        renderCell).map readCell =
      (rowCells t.hasCreatedAt t.hasTopics t.hasCountry t.hasCreatedAt r).map textifyCell
    rw [List.map_map]
    apply List.map_congr_left
    intro cell hcell
    exact readCell_renderCell cell (hsafe r hr cell hcell)
  · cases cell with
    | datev d => exact absurd rfl (hcell d)
    | na => rfl
    | intv n => rfl
    | floatv q => rfl
    | strv s => rfl

/-- C4 counterexample: with created_at present the download header
carries the extra age column; a numeric repository name does not
survive the reparse even when the header matches; and a present
creation date comes back as timestamp text rather than a timestamp, so
row-for-row equality fails on any dated dataset. -/
theorem C4_counterexample :
    (downloadCsv cx4TableA cx4CritA 0).header ≠ Table.columns cx4TableA ∧
    reparseCsv (downloadCsv cx4TableB cx4CritB 0) ≠ inMemoryCells cx4TableB cx4CritB 0 ∧
    reparseCsv (downloadCsv cx4TableC cx4CritC 0) ≠ inMemoryCells cx4TableC cx4CritC 0 := by
  refine ⟨?_, ?_, ?_⟩
  · decide
  · decide
  · decide

/-- C4 witness: on a concrete dataset with created_at and CSV-safe
text, the header gains the age column and the reparse restores every
cell except the creation date, which comes back as its text. -/
theorem C4_witness :
    (downloadCsv c4wTable c4wCrit 9).header =
      Table.columns c4wTable ++ (if c4wTable.hasCreatedAt then ["age"] else []) ∧
    reparseCsv (downloadCsv c4wTable c4wCrit 9) =
      (inMemoryCells c4wTable c4wCrit 9).map (List.map textifyCell) ∧
    (∀ d : Int, textifyCell (Cell.datev d) = Cell.strv (renderDate d) ∧
      readCell (renderDate d) = Cell.strv (renderDate d) ∧
      Cell.strv (renderDate d) ≠ Cell.datev d) ∧
    (∀ cell : Cell, (∀ d : Int, cell ≠ Cell.datev d) → textifyCell cell = cell) :=
  C4_download_roundtrip c4wTable c4wCrit 9 (by decide)

/-- C5 (amended): absent values and NA tokens such as N/A become 0,
numbers are truncated to integer, but a malformed string that is not an
NA token raises ValueError and fails the load instead of becoming 0. -/
theorem C5_count_coercion :
    readCell "N/A" = Cell.na ∧
    coerceCount Cell.na = Except.ok 0 ∧
    load_data c5NaRaw = Except.ok c5NaTable ∧
    (∀ q : Rat, coerceCount (Cell.floatv q) = Except.ok (q.num.tdiv q.den)) ∧
    (∀ s : String, parseIntStr s = none →
      coerceCount (Cell.strv s) = Except.error "invalid literal for int with base 10") := by
  refine ⟨by decide, rfl, by decide, fun q => rfl, fun s hp => ?_⟩
  simp only [coerceCount, hp]

/-- C5 counterexample: a stars cell holding the text abc aborts the
whole load with ValueError, refuting never-raising. -/
theorem C5_counterexample :
    load_data cx5Raw = Except.error (LoadErr.valueError "invalid literal for int with base 10") := by
  decide

/-- C5 witness: the malformed-string clause applied at the text abc. -/
theorem C5_witness :
    parseIntStr "abc" = none ∧
    coerceCount (Cell.strv "abc") = Except.error "invalid literal for int with base 10" :=
  ⟨by decide, C5_count_coercion.2.2.2.2 "abc" (by decide)⟩

end App
